import Mathlib

/-!
# Verification of the inspirasiquran-map Telegram intake bot

Shallow embedding of the conversational intake state machine of the
repository's main bot file (the variant whose dialogue logic spans the
session store, field parsers, guided create/edit flows, skip/back
navigation, preview/confirm and the storage helpers).

Conventions of the embedding:
* JavaScript strings are Lean `String`s; most character-level work is done
  on `List Char` via `String.toList`.
* JavaScript numbers that the bot manipulates exactly (counts, coordinates)
  are rationals `ℚ`; timestamps (`Date` values) are epoch milliseconds `Int`.
* `undefined` and `null` are distinguished where the source distinguishes
  them (`CountVal.undef` vs `CountVal.null`, `JsNum.undef` vs `JsNum.null`).
* Runtime collaborators that are not part of the repository (the JS `Date`
  constructor / `Date.UTC`, the Nominatim geocoder, Telegram file downloads,
  the R2 uploader, random id generation) are oracle fields of `Env`.
* Outbound chat messages carry no state, so handlers in the step machine
  return only the successor state; the few handlers whose reply text a
  property mentions return the reply as well.
-/

namespace IQMap

/-! ## JS string primitives -/

/-- ASCII lower-casing, as `String.prototype.toLowerCase` behaves on the
ASCII inputs this bot compares against. -/
def lowerChar (c : Char) : Char :=
  if 'A' ≤ c ∧ c ≤ 'Z' then Char.ofNat (c.toNat + 32) else c

def lowerList (cs : List Char) : List Char := cs.map lowerChar

def lowerStr (s : String) : String := ⟨lowerList s.toList⟩

/-- JS whitespace test for the characters relevant here (`\s`, and the set
trimmed by `String.prototype.trim`). -/
def isWs (c : Char) : Bool := c = ' ' ∨ c = '\t' ∨ c = '\n' ∨ c = '\r'

/-- JS `String.prototype.trim`. -/
def jsTrimList (cs : List Char) : List Char :=
  ((cs.dropWhile isWs).reverse.dropWhile isWs).reverse

def jsTrim (s : String) : String := ⟨jsTrimList s.toList⟩

/-- JS string truthiness for `Option String` values (`undefined` and `''`
are falsy). -/
def jsTruthy : Option String → Bool
  | none => false
  | some s => s ≠ ""

/-- JS `a || b` on strings (first operand kept when truthy). -/
def jsOr (a b : String) : String := if a = "" then b else a

/-- JS `a || b` where `a` may be `undefined`. -/
def jsOrOpt (a : Option String) (b : String) : String :=
  match a with
  | none => b
  | some s => jsOr s b

/-- Source `normalizeText`: `String(s || '').trim()`. -/
def normalizeText (s : String) : String := jsTrim s

/-- Source `normalizeText` applied to a possibly-`undefined` JS value
(`String(undefined || '') = ''`). -/
def normalizeTextOpt (s : Option String) : String := jsTrim (s.getD "")

/-- Structural list-prefix test (JS `String.prototype.startsWith`). -/
def isPrefixList : List Char → List Char → Bool
  | [], _ => true
  | _ :: _, [] => false
  | a :: as, b :: bs => a = b ∧ isPrefixList as bs

def jsStartsWith (s pre : String) : Bool := isPrefixList pre.toList s.toList

/-- Source `isSkipText`: accepts `skip`, `/skip` and `/skip@botname`
after trimming and lower-casing. -/
def isSkipText (text : String) : Bool :=
  let t := lowerStr (normalizeText text)
  if t = "" then false
  else t = "skip" ∨ t = "/skip" ∨ jsStartsWith t "/skip@"

def isSkipTextOpt (text : Option String) : Bool := isSkipText (text.getD "")

/-! ## Count parser (`parseCountInput`) -/

/-- The value stored in the draft's `count` field: JS `undefined`, `null`
(unknown count), a number, or a preserved free-text string. -/
inductive CountVal where
  | undef : CountVal
  | null : CountVal
  | num : ℚ → CountVal
  | str : String → CountVal
deriving DecidableEq, Repr

/-- Character class `[\s,._-]` (separators stripped before the all-zero
test in `parseCountInput`). -/
def isCountSep (c : Char) : Bool :=
  isWs c ∨ c = ',' ∨ c = '.' ∨ c = '_' ∨ c = '-'

/-- Character class `[\d,._\s]` (the tail of the digit-run regex
`/\d[\d,._\s]*/`; note `-` is *not* in this class). -/
def isRunChar (c : Char) : Bool :=
  c.isDigit ∨ c = ',' ∨ c = '.' ∨ c = '_' ∨ isWs c

/-- First match of `/\d[\d,._\s]*/` in a character list: returns
`(before, run, after)` for the earliest digit and its greedy run. -/
def firstDigitRun : List Char → Option (List Char × List Char × List Char)
  | [] => none
  | c :: cs =>
    if c.isDigit then
      some ([], c :: cs.takeWhile isRunChar, cs.dropWhile isRunChar)
    else
      match firstDigitRun cs with
      | none => none
      | some (b, r, a) => some (c :: b, r, a)

def natOfDigits (cs : List Char) : Nat :=
  cs.foldl (fun n c => n * 10 + (c.toNat - '0'.toNat)) 0

/-- JS `Number(numStr)` restricted to the strings actually produced at the
call site in `parseCountInput` — a nonempty mix of decimal digits and `.`
beginning with a digit.  One dot yields a decimal value, two or more yield
`NaN` (modelled as `none`). -/
def jsNumberOfRun (cs : List Char) : Option ℚ :=
  match cs.splitOn '.' with
  | [intPart] => some (natOfDigits intPart)
  | [intPart, fracPart] =>
      some ((natOfDigits intPart : ℚ) + (natOfDigits fracPart : ℚ) / (10 ^ fracPart.length : ℚ))
  | _ => none

/-- The `/^0+$/` test on the input with `[\s,._-]` separators removed. -/
def allZeroStripped (t : String) : Bool :=
  let stripped := t.toList.filter (fun c => ¬ isCountSep c)
  stripped ≠ [] ∧ stripped.all (· = '0')

/-- The text left after removing the digit run (its first occurrence is
the run itself, as no digit precedes it), trimmed and lower-cased for the
unit-token comparison. -/
def countRemainder (before after : List Char) : String :=
  lowerStr (jsTrim ⟨before ++ after⟩)

/-- Source `parseCountInput`.  Empty / skip input and all-zero input are
the unknown count (`null`); a digit run whose remainder is empty or only a
`mushaf`/`mushafs` unit token is kept numeric; anything else preserves the
trimmed original text. -/
def parseCountInput (raw : String) : CountVal :=
  let t := normalizeText raw
  if t = "" ∨ isSkipText t = true then .null
  else if allZeroStripped t = true then .null
  else
    match firstDigitRun t.toList with
    | some (before, run, after) =>
      let numStr := run.filter (fun c => c.isDigit ∨ c = '.')
      match jsNumberOfRun numStr with
      | some n =>
        let remainder := countRemainder before after
        if remainder = "" ∨ remainder = "mushaf" ∨ remainder = "mushafs" then .num n
        else .str t
      | none => .str t
    | none => .str t

def parseCountInputOpt (raw : Option String) : CountVal :=
  parseCountInput (raw.getD "")

/-! ## Activity-type normalizer -/

/-- Collapse whitespace runs to `_` (the `replace(/\s+/g, '_')` slug step);
the flag records whether the previous character was part of a whitespace
run (whose single underscore has already been emitted). -/
def slugifyAux : Bool → List Char → List Char
  | _, [] => []
  | prevWs, c :: cs =>
    if isWs c then
      if prevWs then slugifyAux true cs
      else '_' :: slugifyAux true cs
    else c :: slugifyAux false cs

def slugify (cs : List Char) : List Char := slugifyAux false cs

/-- Source `normalizeActivityType`: fixed synonym table, else
lowercase-with-underscores passthrough. -/
def normalizeActivityType (raw : String) : String :=
  let t := lowerStr (jsTrim raw)
  if t = "" then ""
  else if t = "transit" ∨ t = "journey" ∨ t = "movement" then "transit"
  else if t = "arrival" ∨ t = "arrive" ∨ t = "tiba" then "arrival"
  else if t = "distribution" ∨ t = "agihan" ∨ t = "distribute" then "distribution"
  else if t = "class" ∨ t = "lesson" ∨ t = "huffaz" then "class"
  else if t = "delivery" ∨ t = "completion" ∨ t = "complete" ∨ t = "selesai" then "completion"
  else if t = "update" ∨ t = "status" then "update"
  else ⟨slugify t.toList⟩

/-! ## Geocoding result and the runtime-oracle environment -/

/-- Successful Nominatim geocode result (`geocodeLocation`). -/
structure Geo where
  lat : ℚ
  lng : ℚ
  display_name : String
deriving DecidableEq, Repr

/-- Runtime collaborators of the bot process that are not repository code.
`jsDate` is the JS `Date` constructor viewed as epoch milliseconds (`none`
is an Invalid Date); `now` the current instant; `dateUTC` the `Date.UTC`
builtin; `geocode` the Nominatim adapter (`null` on failure); `download`
tells whether a Telegram file download succeeds; `fileExists` is
`fs.existsSync`; `freshId`/`freshDbId` the ids minted by `makeId()` and by
the database insert; `r2On`/`r2Upload` the optional object store;
`jsNum` is the JS `Number(...)` coercion (`none` is `NaN`) and `numToStr`
the JS `String(...)` rendering of a number.
`jsDate_empty` records the JS fact that `new Date('')` is invalid. -/
structure Env where
  jsDate : String → Option Int
  now : Int
  dateUTC : Nat → Int → Nat → Nat → Nat → Int
  geocode : String → Option Geo
  download : String → Bool
  fileExists : String → Bool
  freshId : String
  freshDbId : String
  r2On : Bool
  r2Upload : String → Option String
  jsNum : String → Option ℚ
  numToStr : ℚ → String
  jsDate_empty : jsDate "" = none

/-! ## Flexible date parser (`parseFlexibleDate`, `safeDateISO`) -/

/-- The keyword alternatives accepted for "current instant". -/
def isNowKeyword (t : String) : Bool :=
  t = "now" ∨ t = "current" ∨ t = "current time" ∨ t = "today" ∨ t = "today now"

/-- JS `s.replace(' ', 'T')` — a string pattern replaces only the first
occurrence. -/
def replaceFirstSpace : List Char → List Char
  | [] => []
  | c :: cs => if c = ' ' then 'T' :: cs else c :: replaceFirstSpace cs

def isDateSep (c : Char) : Bool := c = '-' ∨ c = '/'

/-- Match exactly `n` decimal digits, returning them and the rest. -/
def splitExact : Nat → List Char → Option (List Char × List Char)
  | 0, cs => some ([], cs)
  | _ + 1, [] => none
  | n + 1, c :: cs =>
    if c.isDigit then (splitExact n cs).map (fun p => (c :: p.1, p.2)) else none

/-- Greedy `\d{1,2}` immediately followed by one character of class
`sepOk`; returns the numeric value and the input after the separator.
Because the separator classes used here are disjoint from digits, the
regex engine's backtracking from two digits to one can never succeed, so
the greedy-only reading is exact. -/
def parse2Sep (sepOk : Char → Bool) : List Char → Option (Nat × List Char)
  | a :: b :: rest =>
    if a.isDigit then
      if b.isDigit then
        match rest with
        | c :: rest2 => if sepOk c then some (natOfDigits [a, b], rest2) else none
        | [] => none
      else if sepOk b then some (natOfDigits [a], rest)
      else none
    else none
  | _ => none

/-- Greedy `\d{1,2}` with nothing required after it. -/
def parse12 : List Char → Option (Nat × List Char)
  | [] => none
  | [a] => if a.isDigit then some (natOfDigits [a], []) else none
  | a :: b :: rest =>
    if a.isDigit then
      if b.isDigit then some (natOfDigits [a, b], rest)
      else some (natOfDigits [a], b :: rest)
    else none

/-- The optional `(?:[ T](\d{1,2}):(\d{2}))?` tail: hour/minute when the
group matches at the current position. -/
def parseTimePart (cs : List Char) : Option (Nat × Nat) :=
  match cs with
  | [] => none
  | c :: rest =>
    if c = ' ' ∨ c = 'T' then
      match parse2Sep (fun d => d = ':') rest with
      | none => none
      | some (hh, rest2) =>
        match splitExact 2 rest2 with
        | none => none
        | some (mmcs, _) => some (hh, natOfDigits mmcs)
    else none

/-- The anchored prefix regex
`/^(\d{4})[-\/](\d{1,2})[-\/](\d{1,2})(?:[ T](\d{1,2}):(\d{2}))?/`
of `parseFlexibleDate`, returning `(Y, M, D, hh, mm)` (hour/minute 0 when
the optional time group does not match). -/
def regexYMD (s : String) : Option (Nat × Nat × Nat × Nat × Nat) :=
  match splitExact 4 s.toList with
  | none => none
  | some (ycs, r1) =>
    match r1 with
    | [] => none
    | c1 :: r2 =>
      if isDateSep c1 then
        match parse2Sep isDateSep r2 with
        | none => none
        | some (mo, r3) =>
          match parse12 r3 with
          | none => none
          | some (d, r4) =>
            match parseTimePart r4 with
            | some (hh, mm) => some (natOfDigits ycs, mo, d, hh, mm)
            | none => some (natOfDigits ycs, mo, d, 0, 0)
      else none

/-- Source `parseFlexibleDate`.  Returns the parsed instant or `none`
(the source's empty-string "unresolved" signal).  The source's
`new Date(Date.UTC(Y,Mo,D,hh,mm))` `isNaN` guard cannot fire for
regex-shaped inputs (all fields are bounded far below the `Date` range),
so the regex branch always yields an instant. -/
def parseFlexibleDate (env : Env) (s : String) : Option Int :=
  if s = "" then none
  else
    let t := lowerStr (jsTrim s)
    if isNowKeyword t then some env.now
    else
      match env.jsDate s with
      | some d => some d
      | none =>
        match env.jsDate ⟨replaceFirstSpace s.toList⟩ with
        | some d => some d
        | none =>
          match regexYMD s with
          | some (y, mo, d, hh, mm) => some (env.dateUTC y ((mo : Int) - 1) d hh mm)
          | none => none

/-- Source `safeDateISO`: parse, falling back to the current instant. -/
def safeDateISO (env : Env) (s : String) : Int :=
  (env.jsDate s).getD env.now

/-- The date-resolution policy as the specification words it (for the
refinement comparison): keyword match, then direct parse, then the
space-to-`T` substitution parse, then the regex-structured parse, then
failure.  Stated as an ordered alternative chain. -/
def flexibleDateSpecOrder (env : Env) (s : String) : Option Int :=
  (if isNowKeyword (lowerStr (jsTrim s)) then some env.now else none) <|>
  env.jsDate s <|>
  env.jsDate ⟨replaceFirstSpace s.toList⟩ <|>
  (regexYMD s).map (fun q => env.dateUTC q.1 ((q.2.1 : Int) - 1) q.2.2.1 q.2.2.2.1 q.2.2.2.2)

/-! ## Identifier helpers (`isUuidLike`, `resolveDbIdFromPrefix`) -/

def isHexChar (c : Char) : Bool :=
  c.isDigit ∨ ('a' ≤ c ∧ c ≤ 'f') ∨ ('A' ≤ c ∧ c ≤ 'F')

/-- Source `isUuidLike`: the 8-4-4-4-12 hexadecimal shape, case
insensitive, on the trimmed input. -/
def isUuidLike (s : String) : Bool :=
  match (jsTrim s).toList.splitOn '-' with
  | [a, b, c, d, e] =>
    a.length = 8 ∧ b.length = 4 ∧ c.length = 4 ∧ d.length = 4 ∧ e.length = 12 ∧
    (a ++ b ++ c ++ d ++ e).all isHexChar
  | _ => false

/-- Case-insensitive prefix match, as `id::text ILIKE $1` with the pattern
`pfx + '%'`. -/
def ilikePfx (pfx : List Char) (id : String) : Bool :=
  isPrefixList (lowerList pfx) (lowerList id.toList)

/-! ## Data model: draft values, items, sessions -/

/-- A JS numeric slot that distinguishes `undefined`, `null` and a number
(used for the draft's `lat`/`lng`). -/
inductive JsNum where
  | undef : JsNum
  | null : JsNum
  | val : ℚ → JsNum
deriving DecidableEq, Repr

/-- A draft/record attachment object. -/
structure Attachment where
  type : String
  path : Option String := none
  fileId : Option String := none
  webPath : Option String := none
deriving DecidableEq, Repr

/-- An attachment slot: `undefined`, `null` (cleared), or an object. -/
inductive AttachVal where
  | undef : AttachVal
  | null : AttachVal
  | mk : Attachment → AttachVal
deriving DecidableEq, Repr

/-- The record assembled by `sendPreview` and persisted on confirm. -/
structure Item where
  id : String
  title : Option String := none
  activity_type : Option String := none
  date : Int
  count : CountVal := .undef
  location : Option String := none
  lat : JsNum := .undef
  lng : JsNum := .undef
  note : Option String := none
  attachment : AttachVal := .null
  attachment_url : Option String := none
  attachment_type : Option String := none
deriving DecidableEq, Repr

/-- The draft under construction (`session.data`); all fields start
`undefined`. -/
structure SessionData where
  id : Option String := none
  title : Option String := none
  activity_type : Option String := none
  date : Option Int := none
  dateRaw : Option String := none
  count : CountVal := .undef
  location : Option String := none
  lat : JsNum := .undef
  lng : JsNum := .undef
  attachment : AttachVal := .undef
  note : Option String := none
deriving DecidableEq, Repr

inductive Mode where
  | create : Mode
  | edit : Mode
deriving DecidableEq, Repr

/-- The `session.editMode` tag: `undefined` until an edit session assigns
`'menu'` or `'guided'`. -/
inductive EditMode where
  | unset : EditMode
  | menu : EditMode
  | guided : EditMode
deriving DecidableEq, Repr

/-- The dialogue step tags (`session.step`); `editMenu` is the source's
`'edit_menu'` pseudo-step. -/
inductive Step where
  | title : Step
  | type : Step
  | date : Step
  | count : Step
  | location : Step
  | attachment : Step
  | note : Step
  | confirming : Step
  | editMenu : Step
deriving DecidableEq, Repr

/-- One in-progress dialogue (`sessions[chatId]`). -/
structure Session where
  userId : Int
  mode : Mode
  editMode : EditMode := .unset
  step : Step := .title
  data : SessionData := {}
  pending : Option Item := none
deriving DecidableEq, Repr

/-- Source `startSession`: a fresh session at the title step with an
empty draft. -/
def startSession (userId : Int) (mode : Mode) : Session :=
  { userId := userId, mode := mode }

/-- Source `isEditMenuMode`. -/
def isEditMenuMode (s : Session) : Bool :=
  s.mode = .edit ∧ s.editMode = .menu

/-- Source `isAllowed` over the `ALLOWED_TELEGRAM_IDS` list. -/
def isAllowed (allowed : List Int) (userId : Int) : Bool :=
  if allowed.length = 0 then true else allowed.contains userId

/-! ## Storage rows and the process state -/

/-- A row of the external `activities` table, as selected by
`getActivityFromDbById` (dates as epoch milliseconds; `raw` is the stored
JSON of the originating item, from which editing recovers
`activity_type`). -/
structure DbRow where
  id : String
  title : String
  note : Option String := none
  activity_date : Option Int := none
  created_at : Int
  count : Option String := none
  location : Option String := none
  latitude : Option ℚ := none
  longitude : Option ℚ := none
  attachment_url : Option String := none
  attachment_type : Option String := none
  raw : Option Item := none
deriving DecidableEq, Repr

/-- The SQL `COALESCE(activity_date, created_at)`. -/
def coalescedDate (r : DbRow) : Int := r.activity_date.getD r.created_at

/-- Source `resolveDbIdFromPrefix` (named `resolveDbIdFromPfx` here).
Full-UUID-shaped input is returned unchanged without consulting storage;
the input is normalised to its hexadecimal characters (at most 32) and
passed through unresolved when fewer than 6 remain; otherwise the
`id::text ILIKE pfx || '%' ... LIMIT 2` query decides: exactly one match
resolves to the full id, two or more raise the ambiguity error, zero
yield the empty not-found signal.  (The query's ORDER BY affects only
which two rows are returned, never how many, so it is omitted.) -/
def resolveDbIdFromPfx (dbe : Bool) (db : List DbRow) (idOrPfx : String) : Except String String :=
  let raw := jsTrim idOrPfx
  if raw = "" then .ok ""
  else if isUuidLike raw then .ok raw
  else if dbe = false then .ok raw
  else
    let pfx := (raw.toList.filter isHexChar).take 32
    if pfx.length < 6 then .ok raw
    else
      match (db.filter (fun r => ilikePfx pfx r.id)).take 2 with
      | [r] => .ok r.id
      | [] => .ok ""
      | _ => .error "Multiple activities match that ID prefix. Please copy the full ID from /list."

/-- A pending menu-driven prompt (`pendingMenuActionByChatId`). -/
inductive PendingAction where
  | edit : PendingAction
  | delete : PendingAction
deriving DecidableEq, Repr

/-- The mutable process state relevant to one conversation: its session
slot, its pending menu action, and the two storage backends.  (The
global tables are keyed by conversation id and every handler touches only
its own conversation's key, so one conversation's slots suffice.) -/
structure World where
  session : Option Session := none
  pendingMenuAction : Option PendingAction := none
  db : List DbRow := []
  files : List Item := []
deriving DecidableEq, Repr

/-! ## Inbound events and replies -/

/-- An inbound chat message: optional text/caption, an optional shared
location, the photo-size list (file ids) and an optional document
`(file_id, file_name)`. -/
structure Msg where
  text : Option String := none
  caption : Option String := none
  location : Option (ℚ × ℚ) := none
  photo : List String := []
  document : Option (String × Option String) := none
deriving DecidableEq, Repr

/-- The replies whose content matters to the stated properties: a plain
`sendMessage` text, or a `promptForStep` call for the given step (the
prompt's wording is presentational and not modelled). -/
inductive Reply where
  | msg : String → Reply
  | prompt : Step → Reply
deriving DecidableEq, Repr

/-! ## The guided step machine (`bot.on('message')` body) -/

/-- Advance after a handled step: field-menu edit sessions return to the
edit menu, everything else steps forward. -/
def advanceTo (s : Session) (next : Step) : Session :=
  if isEditMenuMode s then { s with step := .editMenu } else { s with step := next }

/-- Node `path.basename`: the part after the last `/`. -/
def jsBasename (p : String) : String :=
  match (p.toList.splitOn '/').reverse with
  | last :: _ => ⟨last⟩
  | [] => ""

/-- The `webPath` assigned before previewing/committing a local
attachment file. -/
def uploadsWebPath (p : String) : String :=
  "telegram-bot/uploads/" ++ jsBasename p

/-- Both branches of `sendPreview`'s try block assign `webPath` whenever
the attachment has a (truthy) local path. -/
def previewAttach (a : Attachment) : Attachment :=
  match a.path with
  | some p => if p ≠ "" then { a with webPath := some (uploadsWebPath p) } else a
  | none => a

/-- The draft after `sendPreview`: the staged item aliases the draft's
attachment object, so the draft sees the `webPath` assignment too. -/
def previewData (d : SessionData) : SessionData :=
  match d.attachment with
  | .mk a => { d with attachment := AttachVal.mk (previewAttach a) }
  | _ => d

/-- The staged item `sendPreview` builds from the draft: a fresh id when
none is seeded; `safeDateISO(s.data.date)` is the identity on a seeded
instant and the current instant on an unseeded one; an `undefined`
attachment is coerced to `null` by `s.data.attachment || null`. -/
def previewItem (env : Env) (d : SessionData) : Item :=
  { id := jsOrOpt d.id env.freshId
    title := d.title
    activity_type := d.activity_type
    date := d.date.getD env.now
    count := d.count
    location := d.location
    lat := d.lat
    lng := d.lng
    note := d.note
    attachment :=
      match d.attachment with
      | .mk a => .mk (previewAttach a)
      | _ => .null }

/-- Source `sendPreview`: stage the built item on `pending`, record the
aliased `webPath` assignment in the draft, and move to `confirming`. -/
def sendPreview (env : Env) (s : Session) : Session :=
  { s with data := previewData s.data, pending := some (previewItem env s.data), step := .confirming }

/-- The per-step body of the message handler (the code after the
command-bypass guard, for an existing session).  Inputs that a step does
not recognise re-prompt without mutation, so the session is returned
unchanged for them; at `confirming` and `editMenu` no branch matches and
the session is likewise unchanged. -/
def stepMachine (env : Env) (s : Session) (m : Msg) : Session :=
  match s.step with
  | .title =>
    let d :=
      if isSkipTextOpt m.text ∧ s.mode = .edit then s.data
      else { s.data with title := some (jsOrOpt m.text (jsOrOpt m.caption (jsOrOpt s.data.title "Untitled"))) }
    advanceTo { s with data := d } .type
  | .type =>
    let raw := jsTrim (m.text.getD "")
    let d :=
      if isSkipText raw then
        if s.mode ≠ .edit then { s.data with activity_type := some "" } else s.data
      else { s.data with activity_type := some (normalizeActivityType raw) }
    advanceTo { s with data := d } .date
  | .date =>
    let raw := jsTrim (m.text.getD "")
    if isSkipText raw then
      let d := if s.mode ≠ .edit then { s.data with date := some (safeDateISO env "") } else s.data
      advanceTo { s with data := d } .count
    else if raw = "" then
      advanceTo { s with data := { s.data with date := some (safeDateISO env "") } } .count
    else
      match parseFlexibleDate env raw with
      | some p => advanceTo { s with data := { s.data with date := some p } } .count
      | none =>
        advanceTo { s with data := { s.data with date := some (safeDateISO env raw), dateRaw := some raw } } .count
  | .count =>
    let d :=
      if isSkipTextOpt m.text then
        if s.mode ≠ .edit then { s.data with count := .null } else s.data
      else { s.data with count := parseCountInputOpt m.text }
    advanceTo { s with data := d } .location
  | .location =>
    if isSkipTextOpt m.text then
      let d := if s.mode ≠ .edit then { s.data with location := some "" } else s.data
      advanceTo { s with data := d } .attachment
    else
      match m.location with
      | some q =>
        advanceTo
          { s with data := { s.data with lat := .val q.1, lng := .val q.2, location := some "Shared location" } }
          .attachment
      | none =>
        match m.text with
        | some t =>
          if t ≠ "" ∧ t ≠ "Send my location" ∧ t ≠ "Type location" then
            let typed := jsTrim t
            match env.geocode typed with
            | some g =>
              advanceTo
                { s with data := { s.data with lat := .val g.lat, lng := .val g.lng, location := some g.display_name } }
                .attachment
            | none =>
              advanceTo
                { s with data := { s.data with location := some typed, lat := .null, lng := .null } }
                .attachment
          else s
        | none => s
  | .attachment =>
    match m.photo.getLast? with
    | some fileId =>
      let filename := "uploads/" ++ fileId ++ ".jpg"
      let att : Attachment :=
        if env.download fileId then { type := "photo", path := some filename, fileId := some fileId }
        else { type := "photo", fileId := some fileId }
      advanceTo { s with data := { s.data with attachment := .mk att } } .note
    | none =>
      match m.document with
      | some doc =>
        let filename := "uploads/" ++ jsOrOpt doc.2 doc.1
        let att : Attachment :=
          if env.download doc.1 then { type := "doc", path := some filename, fileId := some doc.1 }
          else { type := "doc", fileId := some doc.1 }
        advanceTo { s with data := { s.data with attachment := .mk att } } .note
      | none =>
        if jsTruthy m.text ∧ isSkipTextOpt m.text then
          let d := if s.mode ≠ .edit then { s.data with attachment := .null } else s.data
          advanceTo { s with data := d } .note
        else s
  | .note =>
    let d :=
      if jsTruthy m.text ∧ isSkipTextOpt m.text then
        if s.mode ≠ .edit then { s.data with note := some "" } else s.data
      else
        match m.text with
        | some t => { s.data with note := some t }
        | none =>
          match m.caption with
          | some c => { s.data with note := some c }
          | none => { s.data with note := some (jsOrOpt s.data.note "") }
    if isEditMenuMode s then { s with data := d, step := .editMenu }
    else sendPreview env { s with data := d }
  | .confirming => s
  | .editMenu => s

/-! ## Skip and back navigation -/

/-- Source `handleSkip` (the `/skip` command).  Field-menu edit sessions
only return to the menu; otherwise the current step's field is cleared or
defaulted and the walk advances.  Note the title step has no branch, and
that the count branch clears unconditionally (no edit-mode guard, unlike
the plain-text skip path of the message handler). -/
def handleSkip (env : Env) (s : Session) : Session :=
  if isEditMenuMode s then { s with step := .editMenu }
  else
    match s.step with
    | .type =>
      { s with data := { s.data with activity_type := some (jsOrOpt s.data.activity_type "") }, step := .date }
    | .date => { s with data := { s.data with date := some (safeDateISO env "") }, step := .count }
    | .count => { s with data := { s.data with count := .null }, step := .location }
    | .location =>
      { s with data := { s.data with location := some (jsOrOpt s.data.location "") }, step := .attachment }
    | .attachment => { s with data := { s.data with attachment := .null }, step := .note }
    | .note => sendPreview env { s with data := { s.data with note := some "" } }
    | _ => s

/-- The previous-step table of the `/back` handler. -/
def stepPrev : Step → Option Step
  | .confirming => some .note
  | .note => some .attachment
  | .attachment => some .location
  | .location => some .count
  | .count => some .date
  | .date => some .type
  | .type => some .title
  | _ => none

/-- Source `/back` handler body (for an existing session): field-menu
edit sessions away from the menu return to it; otherwise the step moves
to its predecessor, or the first-step notice is sent with no change. -/
def backCommand (s : Session) : Session × Option String :=
  if isEditMenuMode s ∧ s.step ≠ .editMenu then ({ s with step := .editMenu }, none)
  else
    match stepPrev s.step with
    | none => (s, some "Already at the first step.")
    | some p => ({ s with step := p }, none)

/-! ## Dialogue-start flows -/

/-- Source `beginGuidedFlow` (`/new`, `_menu_new`, `\new`): after the
authorization gate it starts a fresh create session unconditionally —
there is no existing-session guard here. -/
def beginGuidedFlow (allowed : List Int) (w : World) (userId : Int) : World × Reply :=
  if isAllowed allowed userId = false then (w, .msg "You are not authorized to use guided input.")
  else ({ w with session := some (startSession userId .create) }, .prompt .title)

/-- Draft seeding from a database row (the `beginEditFlow` block that
copies `existing` onto `s.data` "so /skip keeps them").  `activity_type`
is recovered from the stored raw JSON when truthy; the pg row's coalesced
date is always a truthy `Date`, so the seeded date is that instant; the
text `count` column seeds a string count. -/
def seedFromDbRow (r : DbRow) : SessionData :=
  { id := some r.id
    title := some (jsOr r.title "")
    note := some (jsOrOpt r.note "")
    activity_type :=
      match r.raw with
      | some item =>
        match item.activity_type with
        | some t => if t ≠ "" then some t else none
        | none => none
      | none => none
    date := some (coalescedDate r)
    count := match r.count with
      | some c => .str c
      | none => .null
    location := some (jsOrOpt r.location "")
    lat := match r.latitude with
      | some q => .val q
      | none => .null
    lng := match r.longitude with
      | some q => .val q
      | none => .null
    attachment :=
      if jsTruthy r.attachment_url ∨ jsTruthy r.attachment_type then
        .mk { type := jsOrOpt r.attachment_type "photo", webPath := some (jsOrOpt r.attachment_url "") }
      else .undef }

/-- Draft seeding from a file-backed item.  File items carry no `raw`
JSON, so the `activity_type` recovery finds nothing; their `date` is a
(nonempty, hence truthy) stored ISO string, modelled by its instant; the
legacy `.desc` accessor is `undefined` on items this bot writes. -/
def seedFromFile (a : Item) : SessionData :=
  { id := some a.id
    title := some (jsOrOpt a.title "")
    note := some (jsOrOpt a.note "")
    activity_type := none
    date := some a.date
    count := match a.count with
      | .undef => .null
      | .null => .null
      | x => x
    location := some (jsOrOpt a.location "")
    lat := match a.lat with
      | .val q => .val q
      | _ => .null
    lng := match a.lng with
      | .val q => .val q
      | _ => .null
    attachment :=
      if jsTruthy a.attachment_url ∨ jsTruthy a.attachment_type then
        .mk { type := jsOrOpt a.attachment_type "photo", webPath := some (jsOrOpt a.attachment_url "") }
      else
        match a.attachment with
        | .mk att => .mk att
        | _ => .undef }

/-- Source `getActivityFromDbById`, as an equality lookup.  (The external
store's rejection of malformed uuid literals is not modelled; every
stated property reaches this lookup with a full id.) -/
def dbGetById (db : List DbRow) (id : String) : Option DbRow :=
  db.find? (fun r => r.id = id)

/-- Source `beginEditFlow` (`/edit <id>` and the list/menu edit buttons):
authorization gate, single-session guard, id-prefix resolution in db
mode, record fetch, seeding, and entry into the field-menu pseudo-step. -/
def beginEditFlow (allowed : List Int) (dbe : Bool) (w : World) (userId : Int) (idArg : String) :
    World × Reply :=
  if isAllowed allowed userId = false then (w, .msg "Not authorized")
  else if w.session.isSome then (w, .msg "You are already in a session. Type /cancel to stop it first.")
  else
    let activityId := normalizeText idArg
    if activityId = "" then (w, .msg "Usage: /edit <id> (get the id from /list)")
    else
      let needsResolve := dbe ∧ isUuidLike activityId = false
      let resolved : Except String String :=
        if needsResolve then resolveDbIdFromPfx dbe w.db activityId else .ok activityId
      match resolved with
      | .error e => (w, .msg e)
      | .ok rid =>
        if needsResolve ∧ rid = "" then (w, .msg ("Not found: " ++ activityId))
        else
          let theId := if needsResolve then rid else activityId
          let seeded : Option SessionData :=
            if dbe then (dbGetById w.db theId).map seedFromDbRow
            else (w.files.find? (fun a => a.id = theId)).map seedFromFile
          match seeded with
          | none => (w, .msg ("Not found: " ++ theId))
          | some d =>
            let s : Session :=
              { userId := userId, mode := .edit, editMode := .menu, step := .editMenu, data := d }
            ({ w with session := some s }, .prompt .editMenu)

/-- The query `DELETE FROM activities WHERE id = $1 RETURNING id`. -/
def deleteFromDb (db : List DbRow) (id : String) : List DbRow × Option String :=
  if db.any (fun r => r.id = id) then (db.filter (fun r => r.id ≠ id), some id)
  else (db, none)

/-- Source `handleDeleteById` (`/delete <id>`, list/menu delete):
authorization gate, session guard, prefix resolution, then deletion from
whichever backend is active. -/
def handleDeleteById (allowed : List Int) (dbe : Bool) (w : World) (userId : Int) (idArg : String) :
    World × Reply :=
  if isAllowed allowed userId = false then (w, .msg "Not authorized")
  else if w.session.isSome then (w, .msg "You are in a session. Type /cancel first.")
  else
    let nid := normalizeText idArg
    if nid = "" then (w, .msg "Usage: delete needs an id (get the id from /list)")
    else if dbe then
      let needsResolve := isUuidLike nid = false
      let resolved : Except String String :=
        if needsResolve then resolveDbIdFromPfx dbe w.db nid else .ok nid
      match resolved with
      | .error e => (w, .msg ("Delete failed: " ++ e))
      | .ok rid =>
        if needsResolve ∧ rid = "" then (w, .msg ("Not found: " ++ nid))
        else
          let theId := if needsResolve then rid else nid
          match deleteFromDb w.db theId with
          | (db2, some did) => ({ w with db := db2 }, .msg ("Deleted: " ++ did ++ " (Neon)"))
          | (_, none) => (w, .msg ("Not found: " ++ theId))
    else
      if w.files.any (fun a => a.id = nid) then
        ({ w with files := w.files.filter (fun a => a.id ≠ nid) }, .msg ("Deleted: " ++ nid ++ " (local file)"))
      else (w, .msg ("Not found: " ++ nid))

/-! ## Storage writes and the commit path -/

/-- The `/^https?:\/\//i` test. -/
def isHttpUrl (s : String) : Bool :=
  jsStartsWith (lowerStr s) "http://" ∨ jsStartsWith (lowerStr s) "https://"

/-- The query `INSERT INTO activities ... RETURNING id`: the row the insert stores
(empty-string fields are nulled by the `|| null` coercions; only an
already-public attachment `webPath` is stored as `attachment_url`; the
full item is stored as `raw`).  `created_at` is the store's own default
current timestamp. -/
def insertActivityToDb (env : Env) (item : Item) : DbRow :=
  { id := env.freshDbId
    title := jsOrOpt item.title "Activity"
    note := if jsTruthy item.note then item.note else none
    activity_date := some item.date
    created_at := env.now
    count := match item.count with
      | .num q => some (env.numToStr q)
      | .str s => some s
      | _ => none
    location := if jsTruthy item.location then item.location else none
    latitude := match item.lat with
      | .val q => some q
      | _ => none
    longitude := match item.lng with
      | .val q => some q
      | _ => none
    attachment_url :=
      match item.attachment with
      | .mk a =>
        match a.webPath with
        | some wp => if wp ≠ "" ∧ isHttpUrl wp then some wp else none
        | none => none
      | _ => none
    attachment_type :=
      match item.attachment with
      | .mk a => if a.type ≠ "" then some a.type else none
      | _ => none
    raw := some item }

/-- The query `UPDATE activities SET ... WHERE id = $1`: rewrites the matching
row's fields (the update falls back to the item's flat
`attachment_url`/`attachment_type` when the attachment object yields
none; `created_at` is not in the SET list). -/
def updateActivityInDb (env : Env) (db : List DbRow) (id : String) (item : Item) : List DbRow :=
  db.map (fun r =>
    if r.id = id then
      let ins := insertActivityToDb env item
      { ins with
        id := r.id
        created_at := r.created_at
        attachment_url :=
          match ins.attachment_url with
          | some u => some u
          | none => if jsTruthy item.attachment_url then item.attachment_url else none
        attachment_type :=
          match ins.attachment_type with
          | some t => some t
          | none => if jsTruthy item.attachment_type then item.attachment_type else none }
    else r)

/-- Source `ensurePublicAttachmentUrl`: best-effort R2 upload of a local
attachment file; already-public URLs and missing/disabled configurations
leave the item untouched, as does a failed upload (the throw is caught
and logged). -/
def ensurePublicAttachmentUrl (env : Env) (item : Item) : Item :=
  match item.attachment with
  | .mk a =>
    if (match a.webPath with
        | some wp => isHttpUrl wp
        | none => false) then item
    else
      match a.path with
      | some p =>
        if p ≠ "" ∧ env.fileExists p then
          if env.r2On then
            match env.r2Upload p with
            | some url =>
              { item with
                attachment := .mk { a with webPath := some url }
                attachment_url := some url
                attachment_type := some (jsOr a.type "photo") }
            | none => item
          else item
        else item
      | none => item
  | _ => item

/-- The file-backend edit commit: `findIndex` + assignment replaces the
first matching item, a missing id is pushed. -/
def replaceFirstById (files : List Item) (item : Item) : List Item :=
  match files with
  | [] => [item]
  | a :: rest => if a.id = item.id then item :: rest else a :: replaceFirstById rest item

/-- The `_confirm` callback body: ensure a `webPath` for client
rendering, attempt the public-URL upload, persist to the active backend
(update for edit sessions, insert-and-capture-id for create), then
destroy the session.  (The channel announce and the user notification
carry no state.) -/
def commitConfirm (env : Env) (dbe : Bool) (w : World) (s : Session) : World :=
  match s.pending with
  | none => w
  | some item0 =>
    let item1 :=
      match item0.attachment with
      | .mk a =>
        if jsTruthy a.path ∧ ¬ jsTruthy a.webPath then
          { item0 with attachment := .mk { a with webPath := some (uploadsWebPath ((a.path).getD "")) } }
        else item0
      | _ => item0
    let item2 := ensurePublicAttachmentUrl env item1
    if dbe then
      if s.mode = .edit then
        { w with session := none, db := updateActivityInDb env w.db item2.id item2 }
      else
        { w with session := none, db := w.db ++ [insertActivityToDb env item2] }
    else
      let files2 :=
        if s.mode = .edit then replaceFirstById w.files item2
        else w.files ++ [item2]
      { w with session := none, files := files2.mergeSort (fun a b => a.date ≤ b.date) }

/-! ## Quick add (`/add`) -/

/-- JS `s.split('|')` keeping empty parts, each part trimmed. -/
def splitPipeTrim (s : String) : List String :=
  (s.toList.splitOn '|').map (fun p => jsTrim ⟨p⟩)

/-- JS `latlng.split(/[ ,;]+/)`: split on runs of space/comma/semicolon. -/
def isLatLngSep (c : Char) : Bool := c = ' ' ∨ c = ',' ∨ c = ';'

/-- Worker for `splitLatLng`: the flag records whether we are inside a
separator run (whose single boundary has already been emitted). -/
def splitLatLngAux : Bool → List Char → List (List Char)
  | _, [] => [[]]
  | inSep, c :: cs =>
    if isLatLngSep c then
      if inSep then splitLatLngAux true cs
      else [] :: splitLatLngAux true cs
    else
      match splitLatLngAux false cs with
      | [] => [[c]]
      | p :: ps => (c :: p) :: ps

def splitLatLng (cs : List Char) : List (List Char) := splitLatLngAux false cs

/-- Source `/add title | ISO-date | count | location | lat lng | note`.
A `NaN` coordinate (malformed lat-lng text) is modelled as an absent
coordinate; no stated property involves that corner. -/
def addCommand (env : Env) (allowed : List Int) (dbe : Bool) (w : World) (userId : Int) (arg : String) :
    World × Reply :=
  if isAllowed allowed userId = false then (w, .msg "Not authorized")
  else
    let parts := splitPipeTrim (jsTrim arg)
    let title := parts.get? 0
    let dateStr := parts.get? 1
    let countStr := parts.get? 2
    let location := parts.get? 3
    let latlng := parts.get? 4
    let note := parts.get? 5
    let count : CountVal :=
      if jsTruthy countStr then
        match env.jsNum ((countStr).getD "") with
        | some q => .num q
        | none => .str ((countStr).getD "")
      else .null
    let base : Item :=
      { id := env.freshId
        title := some (jsOrOpt title "Activity")
        date := safeDateISO env ((dateStr).getD "")
        count := count
        location := some ((location).getD "")
        note := some ((note).getD "")
        attachment := .undef }
    let item :=
      if jsTruthy latlng then
        let ps := splitLatLng ((latlng).getD "").toList
        if ps.length ≥ 2 then
          { base with
            lat := match env.jsNum ⟨(ps.get? 0).getD []⟩ with
              | some q => .val q
              | none => .null
            lng := match env.jsNum ⟨(ps.get? 1).getD []⟩ with
              | some q => .val q
              | none => .null }
        else base
      else base
    if dbe then
      ({ w with db := w.db ++ [insertActivityToDb env item] }, .msg ("Added: " ++ (item.title).getD ""))
    else
      let files2 := (w.files ++ [item]).mergeSort (fun a b => a.date ≤ b.date)
      ({ w with files := files2 }, .msg ("Added: " ++ (item.title).getD ""))

/-! ## Help and list (read-only commands) -/

/-- Source `getHelpText` (constant). -/
def getHelpText : String :=
  "/menu - show buttons\n/new - guided input\n/back - go to previous step (during /new or /edit)\n/skip - skip current step\n/edit <id> - edit an existing activity\n/delete <id> - delete an activity\n/add title | ISO-date | count | location | lat lng | note - quick add\n/list - recent (shows IDs)\n/cancel - cancel guided input\n\nDuring /new you can also set an activity type (transit/arrival/distribution/class/completion) to make channel posts prettier. You can share location via Telegram or type a location (e.g. Kuala Lumpur, Malaysia), and attach a photo or document. Date examples: now, 2025-12-20, 2025-12-20 14:30, Dec 20 2025."

/-- The `/help` handler: it receives the sender like every handler but
performs no authorization check and reads no state. -/
def helpCommand (_userId : Int) : String := getHelpText

/-- The pure core of `fetchRecentListPage`: the newest-first page slice
(page size 6, one extra row probed for `hasNext`) from whichever backend
is active. -/
def fetchRecentListPage (dbe : Bool) (db : List DbRow) (files : List Item) (pageIndex : Int) :
    List DbRow × List Item × Bool :=
  let offset := (max 0 pageIndex).toNat * 6
  if dbe then
    let sorted := db.mergeSort (fun a b => coalescedDate b ≤ coalescedDate a)
    let rowsAll := (sorted.drop offset).take 7
    (rowsAll.take 6, [], decide (rowsAll.length > 6))
  else
    let sorted := files.mergeSort (fun a b => b.date ≤ a.date)
    let rowsAll := (sorted.drop offset).take 7
    ([], rowsAll.take 6, decide (rowsAll.length > 6))

/-- The `/list` handler: no authorization check, no state mutation; the
sender's identity is received but unused. -/
def listCommand (_userId : Int) (dbe : Bool) (db : List DbRow) (files : List Item) (pageIndex : Int) :
    List DbRow × List Item × Bool :=
  fetchRecentListPage dbe db files pageIndex

/-! ## Cancel and skip commands -/

/-- The `/cancel` command (also the `_menu_cancel` button): clears the pending menu
action and destroys the session. -/
def cancelCommand (w : World) : World :=
  { w with pendingMenuAction := none, session := none }

/-- The `/skip` onText handler: does nothing without a session. -/
def skipCommand (env : Env) (w : World) : World :=
  match w.session with
  | none => w
  | some s => { w with session := some (handleSkip env s) }

/-- The `/back` onText handler lifted to the process state. -/
def backCommandWorld (w : World) : World :=
  match w.session with
  | none => w
  | some s => { w with session := some (backCommand s).1 }

/-! ## The callback-query handler -/

/-- JS `data.slice(pre.length)`. -/
def dropPfxStr (s pre : String) : String := ⟨s.toList.drop pre.toList.length⟩

/-- Source `bot.on('callback_query')`, projected to the state it mutates.
Menu and list actions run with or without a session; the remaining
actions require one (`'Session expired.'` otherwise).  Note that the
type picker, the edit-menu jumps and `_edit_all`/`_edit_preview` remain
live at every step, including `confirming`. -/
def callbackStep (env : Env) (allowed : List Int) (dbe : Bool) (w : World) (userId : Int)
    (data : String) : World :=
  if data = "_menu_new" then (beginGuidedFlow allowed w userId).1
  else if data = "_menu_list" ∨ data = "_menu_help" then w
  else if data = "_menu_edit" then { w with pendingMenuAction := some .edit }
  else if data = "_menu_delete" then { w with pendingMenuAction := some .delete }
  else if data = "_menu_cancel" then { w with pendingMenuAction := none, session := none }
  else if jsStartsWith data "_list_page:" ∨ jsStartsWith data "_list_refresh:" ∨ data = "_list_close" then w
  else if jsStartsWith data "_list_edit:" then
    (beginEditFlow allowed dbe w userId (jsTrim (dropPfxStr data "_list_edit:"))).1
  else if jsStartsWith data "_list_delete:" then
    (handleDeleteById allowed dbe w userId (jsTrim (dropPfxStr data "_list_delete:"))).1
  else
    match w.session with
    | none => w
    | some s =>
      if jsStartsWith data "_set_type:" then
        let t := normalizeActivityType (jsTrim (dropPfxStr data "_set_type:"))
        let s1 := { s with data := { s.data with activity_type := some t } }
        let s2 := if s1.step = .type then { s1 with step := .date } else s1
        { w with session := some s2 }
      else if data = "_edit_cancel" then { w with session := none }
      else if data = "_edit_all" then
        { w with session := some { s with editMode := .guided, step := .title } }
      else if data = "_edit_preview" then { w with session := some (sendPreview env s) }
      else if data = "_edit_field_title" then
        { w with session := some { s with editMode := .menu, step := .title } }
      else if data = "_edit_field_type" then
        { w with session := some { s with editMode := .menu, step := .type } }
      else if data = "_edit_field_date" then
        { w with session := some { s with editMode := .menu, step := .date } }
      else if data = "_edit_field_count" then
        { w with session := some { s with editMode := .menu, step := .count } }
      else if data = "_edit_field_location" then
        { w with session := some { s with editMode := .menu, step := .location } }
      else if data = "_edit_field_attachment" then
        { w with session := some { s with editMode := .menu, step := .attachment } }
      else if data = "_edit_field_note" then
        { w with session := some { s with editMode := .menu, step := .note } }
      else if data = "_confirm" then commitConfirm env dbe w s
      else if data = "_cancel" then { w with session := none }
      else w

/-! ## The message-event wrapper -/

def isWordChar (c : Char) : Bool := c.isAlphanum ∨ c = '_'

/-- Consume an exact character prefix, returning the remainder. -/
def afterPfx : List Char → List Char → Option (List Char)
  | [], cs => some cs
  | _ :: _, [] => none
  | a :: as, b :: bs => if a = b then afterPfx as bs else none

def commandWords : List String :=
  ["start", "help", "menu", "new", "cancel", "skip", "back", "edit", "delete", "add", "list"]

/-- The message handler's command-bypass guard
`/^\/(start|help|menu|new|cancel|skip|back|edit|delete|add|list)\b/i`. -/
def isSessionCommandText (t : String) : Bool :=
  match t.toList with
  | '/' :: rest =>
    commandWords.any (fun word =>
      match afterPfx word.toList (lowerList rest) with
      | some [] => true
      | some (c :: _) => ¬ isWordChar c
      | none => false)
  | _ => false

/-- Parse of `'/' + text.slice(1)` against
`/^\/([a-zA-Z0-9_]+)(?:\s+([\s\S]+))?$/` for the backslash-command
convenience: the lower-cased command word and its argument (the argument
degrades to the run's last whitespace character when only whitespace
follows, per the regex's backtracking). -/
def backslashParse (cs : List Char) : Option (String × String) :=
  let word := cs.takeWhile isWordChar
  let rest := cs.dropWhile isWordChar
  if word.isEmpty then none
  else
    match rest with
    | [] => some (lowerStr ⟨word⟩, "")
    | c :: _ =>
      if isWs c then
        let arg := rest.dropWhile isWs
        if arg.isEmpty then some (lowerStr ⟨word⟩, ⟨rest.drop (rest.length - 1)⟩)
        else some (lowerStr ⟨word⟩, ⟨arg⟩)
      else none

/-- The backslash-command dispatch at the top of the message handler
(state-mutating cases only; unknown or unparsable commands send a tip
and change nothing). -/
def backslashDispatch (env : Env) (allowed : List Int) (dbe : Bool) (w : World) (userId : Int)
    (body : List Char) : World :=
  match backslashParse body with
  | none => w
  | some (cmd, arg) =>
    if cmd = "start" ∨ cmd = "menu" ∨ cmd = "help" ∨ cmd = "list" then w
    else if cmd = "new" then (beginGuidedFlow allowed w userId).1
    else if cmd = "cancel" then cancelCommand w
    else if cmd = "skip" then skipCommand env w
    else if cmd = "back" then backCommandWorld w
    else if cmd = "edit" then (beginEditFlow allowed dbe w userId arg).1
    else if cmd = "delete" then (handleDeleteById allowed dbe w userId arg).1
    else w

/-- The slash-run message-handler body: the menu-driven id prompt
(session-less chats with a pending action answer it, unless the text is
a normal command), then the step machine for the active session (slash
commands bypass it — their onText handlers are modelled separately). -/
def onMessageMain (env : Env) (allowed : List Int) (dbe : Bool) (w : World) (userId : Int) (m : Msg) :
    World :=
  match w.session with
  | none =>
    match w.pendingMenuAction with
    | some act =>
      if (match m.text with
          | some t => isSessionCommandText t
          | none => false) then w
      else
        let raw := normalizeTextOpt m.text
        let w1 := { w with pendingMenuAction := none }
        if raw = "" then w1
        else
          match act with
          | .edit => (beginEditFlow allowed dbe w1 userId raw).1
          | .delete => (handleDeleteById allowed dbe w1 userId raw).1
    | none => w
  | some s =>
    if (match m.text with
        | some t => isSessionCommandText t
        | none => false) then w
    else { w with session := some (stepMachine env s m) }

/-- Source `bot.on('message')`, projected to the state it mutates:
backslash-command dispatch first, then the slash-run body. -/
def onMessage (env : Env) (allowed : List Int) (dbe : Bool) (w : World) (userId : Int) (m : Msg) :
    World :=
  match m.text with
  | some t =>
    if jsStartsWith t "\\" then backslashDispatch env allowed dbe w userId (t.toList.drop 1)
    else onMessageMain env allowed dbe w userId m
  | none => onMessageMain env allowed dbe w userId m

/-! ## Concrete instances used by the theorems -/

/-- A deterministic environment: the JS `Date` constructor resolves
nothing, the clock reads 42, geocoding fails, downloads succeed, R2 is
off. -/
def env0 : Env :=
  { jsDate := fun _ => none
    now := 42
    dateUTC := fun _ _ _ _ _ => 0
    geocode := fun _ => none
    download := fun _ => true
    fileExists := fun _ => false
    freshId := "a-seed0001"
    freshDbId := "11111111-1111-1111-1111-111111111111"
    r2On := false
    r2Upload := fun _ => none
    jsNum := fun _ => none
    numToStr := fun _ => "0"
    jsDate_empty := rfl }

/-- An edit session in the guided (non-menu) submode, at the count step,
seeded with count 1200 — the state reached by `/edit <id>`, `Edit all
(guided)`, then walking to the count step. -/
def editGuidedAtCount : Session :=
  { userId := 9
    mode := .edit
    editMode := .guided
    step := .count
    data := { id := some "22222222-2222-2222-2222-222222222222"
              title := some "Agihan"
              count := .num 1200 } }

/-- A create session at the date step. -/
def createAtDate : Session := { userId := 7, mode := .create, step := .date }

/-- A create session at the location step with previously-set
coordinates. -/
def createAtLocation : Session :=
  { userId := 7
    mode := .create
    step := .location
    data := { lat := .val 3, lng := .val 101, location := some "Old place" } }

/-- A create session at the count step with a collected title. -/
def createAtCount : Session :=
  { userId := 7, mode := .create, step := .count, data := { title := some "T" } }

/-- A staged item and a session sitting at `confirming` with it. -/
def confirmItem : Item := { id := "a-1", title := some "T", date := 5 }

def confirmSession : Session :=
  { userId := 5, mode := .create, step := .confirming, data := { title := some "T" }
    pending := some confirmItem }

def confirmWorld : World := { session := some confirmSession }

/-- A field-menu edit session sitting at `confirming` (the state reached
via `_edit_preview` from the field menu). -/
def menuConfirmSession : Session :=
  { userId := 5
    mode := .edit
    editMode := .menu
    step := .confirming
    data := { id := some "22222222-2222-2222-2222-222222222222", title := some "T" }
    pending := some confirmItem }

/-- An active session and the world holding it (for the duplicate-start
claims). -/
def existingSession : Session :=
  { userId := 5, mode := .create, step := .count, data := { title := some "Keep" } }

def existingWorld : World := { session := some existingSession }

/-- Two stored rows whose identifiers share the prefixes `abc` and
`abc111`. -/
def rowA : DbRow :=
  { id := "abc11110-0000-4000-8000-000000000001", title := "A", created_at := 0 }

def rowB : DbRow :=
  { id := "abc11120-0000-4000-8000-000000000002", title := "B", created_at := 0 }

/-! # Theorems

One theorem per claim (with counterexamples and witnesses as separate
closed theorems). -/

/-- C3: count parsing reference vectors — `"1,200 Mushaf"` is the number
1200, `"0"` is the unknown count, `"8000"` is 8000, and
`"approximately fifty"` is preserved verbatim; in general skip input and
all-zero input are the unknown count, a digit run whose remainder is only
the `mushaf`/`mushafs` unit token stays numeric, and any other remainder
preserves the whole trimmed original. -/
theorem count_parsing_reference_vectors :
    parseCountInput "1,200 Mushaf" = .num 1200 ∧
    parseCountInput "0" = .null ∧
    parseCountInput "8000" = .num 8000 ∧
    parseCountInput "approximately fifty" = .str "approximately fifty" ∧
    (∀ s : String, isSkipText (normalizeText s) = true → parseCountInput s = .null) ∧
    (∀ s : String, allZeroStripped (normalizeText s) = true → parseCountInput s = .null) ∧
    (∀ (s : String) (b r a : List Char) (n : ℚ),
      normalizeText s ≠ "" →
      isSkipText (normalizeText s) = false →
      allZeroStripped (normalizeText s) = false →
      firstDigitRun (normalizeText s).toList = some (b, r, a) →
      jsNumberOfRun (r.filter (fun c => c.isDigit ∨ c = '.')) = some n →
      (countRemainder b a = "" ∨ countRemainder b a = "mushaf" ∨ countRemainder b a = "mushafs") →
      parseCountInput s = .num n) ∧
    (∀ (s : String) (b r a : List Char) (n : ℚ),
      normalizeText s ≠ "" →
      isSkipText (normalizeText s) = false →
      allZeroStripped (normalizeText s) = false →
      firstDigitRun (normalizeText s).toList = some (b, r, a) →
      jsNumberOfRun (r.filter (fun c => c.isDigit ∨ c = '.')) = some n →
      ¬ (countRemainder b a = "" ∨ countRemainder b a = "mushaf" ∨ countRemainder b a = "mushafs") →
      parseCountInput s = .str (normalizeText s)) := by
  refine ⟨by decide, by decide, by decide, by decide, ?_, ?_, ?_, ?_⟩
  · intro s h
    simp only [parseCountInput]
    rw [if_pos (Or.inr h)]
  · intro s h
    simp only [parseCountInput]
    by_cases h0 : normalizeText s = "" ∨ isSkipText (normalizeText s) = true
    · rw [if_pos h0]
    · rw [if_neg h0, if_pos h]
  · intro s b r a n h1 h2 h3 h4 h5 h6
    simp only [parseCountInput]
    rw [if_neg (by simp [h1, h2]), if_neg (by simp [h3]), h4]
    simp only [h5]
    rw [if_pos h6]
  · intro s b r a n h1 h2 h3 h4 h5 h6
    simp only [parseCountInput]
    rw [if_neg (by simp [h1, h2]), if_neg (by simp [h3]), h4]
    simp only [h5]
    rw [if_neg h6]

/-- Witness for C3: the universally-quantified conjuncts applied at
concrete inputs. -/
theorem count_parsing_reference_vectors_witness :
    parseCountInput "skip" = .null ∧
    parseCountInput "00,0" = .null ∧
    parseCountInput "250 units" = .str "250 units" ∧
    parseCountInput "250 mushafs" = .num 250 := by
  refine ⟨?_, ?_, ?_, ?_⟩
  · exact count_parsing_reference_vectors.2.2.2.2.1 "skip" (by decide)
  · exact count_parsing_reference_vectors.2.2.2.2.2.1 "00,0" (by decide)
  · exact count_parsing_reference_vectors.2.2.2.2.2.2.2 "250 units"
      [] ['2', '5', '0', ' '] ['u', 'n', 'i', 't', 's'] 250
      (by decide) (by decide) (by decide) (by decide) (by decide) (by decide)
  · exact count_parsing_reference_vectors.2.2.2.2.2.2.1 "250 mushafs"
      [] ['2', '5', '0', ' '] ['m', 'u', 's', 'h', 'a', 'f', 's'] 250
      (by decide) (by decide) (by decide) (by decide) (by decide) (by decide)

/-! ### Date parser claims -/

theorem advanceTo_data (s : Session) (n : Step) : (advanceTo s n).data = s.data := by
  unfold advanceTo
  split <;> rfl

theorem advanceTo_mode (s : Session) (n : Step) : (advanceTo s n).mode = s.mode := by
  unfold advanceTo
  split <;> rfl

/-- A failed flexible parse implies the direct `Date` parse failed. -/
theorem parseFlexibleDate_none_jsDate {env : Env} {t : String}
    (h : parseFlexibleDate env t = none) : env.jsDate t = none := by
  by_cases hs : t = ""
  · rw [hs]
    exact env.jsDate_empty
  · simp only [parseFlexibleDate, if_neg hs] at h
    by_cases hk : isNowKeyword (lowerStr (jsTrim t)) = true
    · simp [hk] at h
    · simp only [hk, if_false, Bool.false_eq_true] at h
      cases hd : env.jsDate t with
      | some d => rw [hd] at h; exact absurd h (by simp)
      | none => rfl

/-- C6: the flexible date parser is total by construction (it is a plain
function into `Option`, `none` being the defined "unresolved" signal) and
resolves exactly in the stated order — keyword match, direct parse,
space-to-`T` substitution parse, regex-structured parse, failure — and
the `now`/`today` keyword family (case-insensitive) yields the current
instant. -/
theorem date_parser_resolution_order :
    (∀ (env : Env) (s : String), parseFlexibleDate env s = flexibleDateSpecOrder env s) ∧
    (∀ (env : Env) (s : String), isNowKeyword (lowerStr (jsTrim s)) = true →
      parseFlexibleDate env s = some env.now) := by
  constructor
  · intro env s
    by_cases hs : s = ""
    · subst hs
      have h2 : (⟨replaceFirstSpace ([] : List Char)⟩ : String) = "" := rfl
      have hkw : isNowKeyword (lowerStr (jsTrim "")) = false := by decide
      have hr : regexYMD "" = none := rfl
      simp [parseFlexibleDate, flexibleDateSpecOrder, env.jsDate_empty, h2, hkw, hr]
    · by_cases hk : isNowKeyword (lowerStr (jsTrim s)) = true
      · simp [parseFlexibleDate, flexibleDateSpecOrder, hs, hk]
      · simp only [parseFlexibleDate, flexibleDateSpecOrder, if_neg hs, hk, if_false,
          Bool.false_eq_true]
        cases hd : env.jsDate s with
        | some d => simp [hd]
        | none =>
          simp only [hd, Option.none_orElse]
          cases hd2 : env.jsDate ⟨replaceFirstSpace s.toList⟩ with
          | some d => simp [hd2]
          | none =>
            simp only [hd2, Option.none_orElse]
            cases hr : regexYMD s with
            | some q => simp [hr]
            | none => simp [hr]
  · intro env s hk
    by_cases hs : s = ""
    · rw [hs] at hk
      exact absurd hk (by decide)
    · simp [parseFlexibleDate, hs, hk]

/-- Witness for C6 at a concrete keyword input. -/
theorem date_parser_resolution_order_witness :
    isNowKeyword (lowerStr (jsTrim "  TODAY ")) = true ∧
    parseFlexibleDate env0 "  TODAY " = some env0.now :=
  ⟨by decide, date_parser_resolution_order.2 env0 "  TODAY " (by decide)⟩

/-- C5: at the date step, text that no stage of the flexible parser
resolves sets the draft's date to the current instant and retains the
trimmed raw text in `dateRaw` for display. -/
theorem date_fallback (env : Env) (s : Session) (raw : String)
    (hstep : s.step = .date)
    (hskip : isSkipText (jsTrim raw) = false)
    (hne : jsTrim raw ≠ "")
    (hunp : parseFlexibleDate env (jsTrim raw) = none) :
    (stepMachine env s { text := some raw }).data.date = some env.now ∧
    (stepMachine env s { text := some raw }).data.dateRaw = some (jsTrim raw) := by
  have hjs : env.jsDate (jsTrim raw) = none := parseFlexibleDate_none_jsDate hunp
  simp only [stepMachine, hstep, Option.getD_some, hskip, Bool.false_eq_true, if_false,
    if_neg hne, hunp, safeDateISO, hjs, Option.getD_none]
  constructor <;> simp [advanceTo_data]

/-- Witness for C5 at the specification's example input. -/
theorem date_fallback_witness :
    (stepMachine env0 createAtDate { text := some "sometime next week" }).data.date =
      some env0.now ∧
    (stepMachine env0 createAtDate { text := some "sometime next week" }).data.dateRaw =
      some "sometime next week" := by
  have h := date_fallback env0 createAtDate "sometime next week" rfl (by decide) (by decide)
    (by decide)
  exact ⟨h.1, h.2.trans (by decide)⟩

/-! ### Identifier-prefix claims -/

/-- Counterexample for C7: the three-character prefix `abc` matches both
stored records, yet resolution returns the raw input (hex-normalised
prefixes shorter than 6 are passed through), not the ambiguity error —
and not either record's id. -/
theorem ambiguous_pfx_counterexample :
    ([rowA, rowB].filter (fun r => ilikePfx "abc".toList r.id)).length = 2 ∧
    resolveDbIdFromPfx true [rowA, rowB] "abc" = .ok "abc" ∧
    "abc" ≠ rowA.id ∧ "abc" ≠ rowB.id :=
  ⟨by decide, rfl, by decide, by decide⟩

/-- C7 (amended): for inputs whose hex-normalised prefix keeps at least 6
characters (and which are not full-UUID-shaped), a prefix matching more
than one stored record fails with the ambiguity error, and a prefix
matching exactly one record resolves to that record's full id.  Shorter
prefixes are passed through unresolved (never silently picking a
record). -/
theorem ambiguous_pfx_amended :
    ∀ (db : List DbRow) (input : String),
      jsTrim input ≠ "" →
      isUuidLike (jsTrim input) = false →
      6 ≤ (((jsTrim input).toList.filter isHexChar).take 32).length →
      ((1 < (db.filter
          (fun r => ilikePfx (((jsTrim input).toList.filter isHexChar).take 32) r.id)).length →
        resolveDbIdFromPfx true db input =
          .error "Multiple activities match that ID prefix. Please copy the full ID from /list.") ∧
       (∀ r : DbRow,
        db.filter (fun r2 => ilikePfx (((jsTrim input).toList.filter isHexChar).take 32) r2.id) =
          [r] →
        resolveDbIdFromPfx true db input = .ok r.id)) := by
  intro db input h1 h2 h3
  constructor
  · intro hlen
    simp only [resolveDbIdFromPfx, if_neg h1, h2, Bool.false_eq_true, if_false,
      if_neg (by omega : ¬ (((jsTrim input).toList.filter isHexChar).take 32).length < 6)]
    match hl : db.filter
        (fun r => ilikePfx (((jsTrim input).toList.filter isHexChar).take 32) r.id) with
    | [] => rw [hl] at hlen; simp at hlen
    | [x] => rw [hl] at hlen; simp at hlen
    | x :: y :: t => rw [hl]; rfl
  · intro r hr
    simp only [resolveDbIdFromPfx, if_neg h1, h2, Bool.false_eq_true, if_false,
      if_neg (by omega : ¬ (((jsTrim input).toList.filter isHexChar).take 32).length < 6)]
    rw [hr]
    rfl

/-- Witness for C7: a 6-hex prefix shared by both rows is ambiguous; a
7-hex prefix unique to one row resolves to its full id. -/
theorem ambiguous_pfx_amended_witness :
    resolveDbIdFromPfx true [rowA, rowB] "abc111" =
      .error "Multiple activities match that ID prefix. Please copy the full ID from /list." ∧
    resolveDbIdFromPfx true [rowA, rowB] "abc1112" = .ok rowB.id := by
  constructor
  · exact (ambiguous_pfx_amended [rowA, rowB] "abc111" (by decide) (by decide) (by decide)).1
      (by decide)
  · exact (ambiguous_pfx_amended [rowA, rowB] "abc1112" (by decide) (by decide) (by decide)).2
      rowB (by decide)

/-! ### Authorization claims -/

/-- Counterexample for C9: the guided-create entry rejects an
unauthorized sender with a different message than the claimed
`'Not authorized'`. -/
theorem auth_gating_counterexample :
    beginGuidedFlow [1] {} 2 = ({}, .msg "You are not authorized to use guided input.") ∧
    Reply.msg "You are not authorized to use guided input." ≠ Reply.msg "Not authorized" :=
  ⟨rfl, by decide⟩

/-- C9 (amended): `isAllowed` holds exactly when the allow-list is empty
or contains the sender; each state-mutating entry (new / edit / delete /
add) rejects an unauthorized sender with no state change — edit, delete
and add reply `'Not authorized'`, the guided-create entry replies
`'You are not authorized to use guided input.'` — and the read-only help
and list handlers ignore the sender's identity entirely. -/
theorem auth_gating_amended :
    (∀ (allowed : List Int) (uid : Int),
      isAllowed allowed uid = true ↔ (allowed = [] ∨ uid ∈ allowed)) ∧
    (∀ (allowed : List Int) (w : World) (uid : Int), isAllowed allowed uid = false →
      beginGuidedFlow allowed w uid = (w, .msg "You are not authorized to use guided input.")) ∧
    (∀ (allowed : List Int) (dbe : Bool) (w : World) (uid : Int) (idArg : String),
      isAllowed allowed uid = false →
      beginEditFlow allowed dbe w uid idArg = (w, .msg "Not authorized")) ∧
    (∀ (allowed : List Int) (dbe : Bool) (w : World) (uid : Int) (idArg : String),
      isAllowed allowed uid = false →
      handleDeleteById allowed dbe w uid idArg = (w, .msg "Not authorized")) ∧
    (∀ (env : Env) (allowed : List Int) (dbe : Bool) (w : World) (uid : Int) (arg : String),
      isAllowed allowed uid = false →
      addCommand env allowed dbe w uid arg = (w, .msg "Not authorized")) ∧
    (∀ u v : Int, helpCommand u = helpCommand v) ∧
    (∀ (u v : Int) (dbe : Bool) (db : List DbRow) (files : List Item) (p : Int),
      listCommand u dbe db files p = listCommand v dbe db files p) := by
  refine ⟨?_, ?_, ?_, ?_, ?_, fun _ _ => rfl, fun _ _ _ _ _ _ => rfl⟩
  · intro allowed uid
    unfold isAllowed
    by_cases h : allowed.length = 0
    · simp [h, List.length_eq_zero.mp h]
    · have : allowed ≠ [] := fun he => h (by simp [he])
      simp [h, this, List.elem_iff]
  · intro allowed w uid h
    simp [beginGuidedFlow, h]
  · intro allowed dbe w uid idArg h
    simp [beginEditFlow, h]
  · intro allowed dbe w uid idArg h
    simp [handleDeleteById, h]
  · intro env allowed dbe w uid arg h
    simp [addCommand, h]

/-- Witness for C9: the gates evaluated for sender 2 against allow-list
`[1]`. -/
theorem auth_gating_amended_witness :
    isAllowed [1] 2 = false ∧
    beginEditFlow [1] true {} 2 "x" = ({}, .msg "Not authorized") ∧
    handleDeleteById [1] true {} 2 "x" = ({}, .msg "Not authorized") ∧
    addCommand env0 [1] true {} 2 "a | b" = ({}, .msg "Not authorized") ∧
    beginGuidedFlow [1] {} 2 = ({}, .msg "You are not authorized to use guided input.") :=
  ⟨by decide,
   auth_gating_amended.2.2.1 [1] true {} 2 "x" (by decide),
   auth_gating_amended.2.2.2.1 [1] true {} 2 "x" (by decide),
   auth_gating_amended.2.2.2.2.1 env0 [1] true {} 2 "a | b" (by decide),
   auth_gating_amended.2.1 [1] {} 2 (by decide)⟩

/-! ### Single-active-session claims -/

/-- Counterexample for C2: `/new` (`beginGuidedFlow`) on a conversation
that already holds an active session silently replaces it with a fresh
create session — it is not rejected and the old session is lost. -/
theorem single_session_counterexample :
    (beginGuidedFlow [] existingWorld 5).1.session = some (startSession 5 .create) ∧
    some (startSession 5 .create) ≠ existingWorld.session ∧
    existingWorld.session = some existingSession :=
  ⟨rfl, by decide, rfl⟩

/-- C2 (amended): the edit entry (`/edit`) rejects a dialogue start while
a session exists, with the cancel-first message and no state change; the
guided-create entry (`/new`) performs no such check and unconditionally
installs a fresh create session (for an authorized sender), overwriting
any active one. -/
theorem single_session_amended :
    (∀ (allowed : List Int) (dbe : Bool) (w : World) (uid : Int) (idArg : String) (s : Session),
      isAllowed allowed uid = true → w.session = some s →
      beginEditFlow allowed dbe w uid idArg =
        (w, .msg "You are already in a session. Type /cancel to stop it first.")) ∧
    (∀ (allowed : List Int) (w : World) (uid : Int),
      isAllowed allowed uid = true →
      beginGuidedFlow allowed w uid =
        ({ w with session := some (startSession uid .create) }, .prompt .title)) := by
  constructor
  · intro allowed dbe w uid idArg s hauth hsess
    simp [beginEditFlow, hauth, hsess]
  · intro allowed w uid hauth
    simp [beginGuidedFlow, hauth]

/-- Witness for C2: the edit entry rejected on a world with an active
session; the create entry installing a fresh session. -/
theorem single_session_amended_witness :
    beginEditFlow [] true existingWorld 5 "abc11110-0000-4000-8000-000000000001" =
      (existingWorld, .msg "You are already in a session. Type /cancel to stop it first.") ∧
    beginGuidedFlow [] {} 5 = ({ session := some (startSession 5 .create) }, .prompt .title) :=
  ⟨single_session_amended.1 [] true existingWorld 5 "abc11110-0000-4000-8000-000000000001"
      existingSession (by decide) rfl,
   single_session_amended.2 [] {} 5 (by decide)⟩

/-! ### Skip-asymmetry claims -/

/-- C1: skip asymmetry at the count step, evaluated on both skip paths of
an edit session in the guided (non-menu) submode seeded with count 1200.
The plain-text `skip` handled by the message handler keeps the seeded
count (and a create-mode skip clears it), but the `/skip` command handled
by `handleSkip` clears the count to the unknown value even in edit mode —
against the claim, the bot's own edit-mode prompt (`or /skip to keep.`)
and the seeding comment (`so /skip keeps them`). -/
theorem skip_asymmetry_count_paths :
    (stepMachine env0 editGuidedAtCount { text := some "skip" }).data.count = .num 1200 ∧
    (stepMachine env0 editGuidedAtCount { text := some "skip" }).step = .location ∧
    (stepMachine env0 createAtCount { text := some "skip" }).data.count = .null ∧
    (handleSkip env0 editGuidedAtCount).data.count = .null ∧
    (handleSkip env0 editGuidedAtCount).step = .location := by
  refine ⟨?_, ?_, ?_, ?_, ?_⟩ <;> decide

/-! ### Stale-coordinate claims -/

/-- C10: at the location step, typed location text that the geocoder
cannot resolve stores the typed (trimmed) text and explicitly clears both
coordinates to `null`, so unresolved text is never paired with stale
coordinates. -/
theorem stale_coords_cleared (env : Env) (s : Session) (t : String)
    (hstep : s.step = .location)
    (hskip : isSkipText t = false)
    (hne : t ≠ "")
    (h1 : t ≠ "Send my location")
    (h2 : t ≠ "Type location")
    (hgeo : env.geocode (jsTrim t) = none) :
    (stepMachine env s { text := some t }).data.lat = .null ∧
    (stepMachine env s { text := some t }).data.lng = .null ∧
    (stepMachine env s { text := some t }).data.location = some (jsTrim t) := by
  simp only [stepMachine, hstep]
  simp [isSkipTextOpt, hskip, hne, h1, h2, hgeo, advanceTo_data]

/-- Witness for C10: an edit-style location with previously-set
coordinates, retyped to text the geocoder cannot resolve. -/
theorem stale_coords_cleared_witness :
    createAtLocation.data.lat = .val 3 ∧
    (stepMachine env0 createAtLocation { text := some "Atlantis hidden city" }).data.lat = .null ∧
    (stepMachine env0 createAtLocation { text := some "Atlantis hidden city" }).data.lng = .null ∧
    (stepMachine env0 createAtLocation { text := some "Atlantis hidden city" }).data.location =
      some "Atlantis hidden city" := by
  have h := stale_coords_cleared env0 createAtLocation "Atlantis hidden city" rfl (by decide)
    (by decide) (by decide) (by decide) rfl
  exact ⟨by decide, h.1, h.2.1, h.2.2.trans (by decide)⟩

/-! ### Confirming-step claims -/

/-- Text with no slash at all cannot be a slash command. -/
theorem isSessionCommandText_eq_false_of_no_slash {t : String}
    (h : t.toList.contains '/' = false) : isSessionCommandText t = false := by
  unfold isSessionCommandText
  split
  · next rest heq => rw [heq] at h; simp at h
  · rfl

/-- Counterexample for C4: a session sitting at `confirming` is mutated
by the type-picker callback, which is neither the confirm nor the cancel
callback. -/
theorem confirming_counterexample :
    (callbackStep env0 [] true confirmWorld 5 "_set_type:transit").session =
      some { confirmSession with
              data := { confirmSession.data with activity_type := some "transit" } } ∧
    confirmSession.data.activity_type ≠ some "transit" ∧
    confirmSession.step = .confirming ∧
    "_set_type:transit" ≠ "_confirm" ∧ "_set_type:transit" ≠ "_cancel" := by
  refine ⟨by decide, by decide, rfl, by decide, by decide⟩

/-- C4 (amended): from `confirming`, the confirm callback runs the commit
path (which destroys the session), the cancel callback destroys the
session with both storage backends untouched, and every plain message
(text without slash commands or the backslash convenience, and any
photo/location message) leaves the whole state unchanged.  Other inputs
are not all rejected: `/skip` is inert only for non-menu sessions — in
field-menu edit submode (a state `_edit_preview` reaches) it moves the
session back to the field menu; `/back` moves a non-menu session back to
the note step and a field-menu session back to the field menu; and the
remaining session-scoped callbacks stay live too: the type picker
mutates the draft (see the counterexample), the edit-menu jumps and
`_edit_all` move the step, `_edit_preview` restages, `_menu_new`
replaces the session and the cancel buttons destroy it. -/
theorem confirming_amended :
    (∀ (env : Env) (allowed : List Int) (dbe : Bool) (w : World) (uid : Int) (s : Session),
      w.session = some s → s.step = .confirming →
      (callbackStep env allowed dbe w uid "_cancel").session = none ∧
      (callbackStep env allowed dbe w uid "_cancel").db = w.db ∧
      (callbackStep env allowed dbe w uid "_cancel").files = w.files) ∧
    (∀ (env : Env) (allowed : List Int) (dbe : Bool) (w : World) (uid : Int) (s : Session),
      w.session = some s → s.step = .confirming →
      callbackStep env allowed dbe w uid "_confirm" = commitConfirm env dbe w s) ∧
    (∀ (env : Env) (dbe : Bool) (w : World) (s : Session) (item : Item),
      s.pending = some item → (commitConfirm env dbe w s).session = none) ∧
    (∀ (env : Env) (allowed : List Int) (dbe : Bool) (w : World) (uid : Int) (s : Session)
        (m : Msg),
      w.session = some s → s.step = .confirming →
      (match m.text with
       | some t => t.toList.contains '/' = false ∧ jsStartsWith t "\\" = false
       | none => True) →
      onMessage env allowed dbe w uid m = w) ∧
    (∀ (env : Env) (s : Session), s.step = .confirming → isEditMenuMode s = false →
      handleSkip env s = s) ∧
    (∀ (env : Env) (s : Session), s.step = .confirming → isEditMenuMode s = true →
      handleSkip env s = { s with step := .editMenu }) ∧
    (∀ s : Session, s.step = .confirming → isEditMenuMode s = false →
      backCommand s = ({ s with step := .note }, none)) ∧
    (∀ s : Session, s.step = .confirming → isEditMenuMode s = true →
      backCommand s = ({ s with step := .editMenu }, none)) := by
  refine ⟨?_, ?_, ?_, ?_, ?_, ?_, ?_, ?_⟩
  · intro env allowed dbe w uid s hsess hstep
    simp +decide [callbackStep, hsess]
  · intro env allowed dbe w uid s hsess hstep
    simp +decide [callbackStep, hsess]
  · intro env dbe w s item hpend
    simp only [commitConfirm, hpend]
    split <;> split <;> rfl
  · intro env allowed dbe w uid s m hsess hstep hm
    have hmach : stepMachine env s m = s := by
      simp only [stepMachine, hstep]
    obtain ⟨ws, wp, wdb, wf⟩ := w
    simp only at hsess
    subst hsess
    cases hmt : m.text with
    | none =>
      simp only [onMessage, hmt, onMessageMain, hmach, Bool.false_eq_true, if_false]
    | some t =>
      rw [hmt] at hm
      simp only at hm
      have hcmd : isSessionCommandText t = false := isSessionCommandText_eq_false_of_no_slash hm.1
      simp only [onMessage, hmt, hm.2, Bool.false_eq_true, if_false, onMessageMain, hmt, hcmd,
        hmach]
  · intro env s hstep hmenu
    simp only [handleSkip, hmenu, Bool.false_eq_true, if_false, hstep]
  · intro env s hstep hmenu
    simp [handleSkip, hmenu]
  · intro s hstep hmenu
    simp [backCommand, hmenu, hstep, stepPrev]
  · intro s hstep hmenu
    simp [backCommand, hmenu, hstep]

/-- Witness for C4: the amended statement evaluated on the concrete
confirming sessions — a create (non-menu) one and a field-menu edit
one. -/
theorem confirming_amended_witness :
    (callbackStep env0 [] true confirmWorld 5 "_cancel").session = none ∧
    callbackStep env0 [] true confirmWorld 5 "_confirm" =
      commitConfirm env0 true confirmWorld confirmSession ∧
    (commitConfirm env0 true confirmWorld confirmSession).session = none ∧
    onMessage env0 [] true confirmWorld 5 { text := some "hello there" } = confirmWorld ∧
    handleSkip env0 confirmSession = confirmSession ∧
    handleSkip env0 menuConfirmSession = { menuConfirmSession with step := .editMenu } ∧
    backCommand confirmSession = ({ confirmSession with step := .note }, none) ∧
    backCommand menuConfirmSession = ({ menuConfirmSession with step := .editMenu }, none) :=
  ⟨(confirming_amended.1 env0 [] true confirmWorld 5 confirmSession rfl rfl).1,
   confirming_amended.2.1 env0 [] true confirmWorld 5 confirmSession rfl rfl,
   confirming_amended.2.2.1 env0 true confirmWorld confirmSession confirmItem rfl,
   confirming_amended.2.2.2.1 env0 [] true confirmWorld 5 confirmSession
     { text := some "hello there" } rfl rfl (by decide),
   confirming_amended.2.2.2.2.1 env0 confirmSession rfl rfl,
   confirming_amended.2.2.2.2.2.1 env0 menuConfirmSession rfl rfl,
   confirming_amended.2.2.2.2.2.2.1 confirmSession rfl rfl,
   confirming_amended.2.2.2.2.2.2.2 menuConfirmSession rfl rfl⟩

/-! ### Back-navigation claims: helper lemmas -/

theorem jsOr_empty_right (v : String) : jsOr v "" = v := by
  unfold jsOr
  split
  · next h => exact h.symm
  · rfl

theorem jsOrOpt_ne_of_ne {dflt : String} (h : dflt ≠ "") (x : Option String) :
    jsOrOpt x dflt ≠ "" := by
  cases x with
  | none => simpa [jsOrOpt]
  | some s =>
    simp only [jsOrOpt, jsOr]
    split
    · exact h
    · next h2 => exact h2

theorem jsOrOpt_some_of_ne {v : String} (h : v ≠ "") (dflt : String) :
    jsOrOpt (some v) dflt = v := by
  simp [jsOrOpt, jsOr, h]

theorem jsOrOpt_idem (y : Option String) (u : String) :
    jsOrOpt y (jsOrOpt y u) = jsOrOpt y u := by
  cases y with
  | none => rfl
  | some s =>
    by_cases hs : s = "" <;> simp [jsOrOpt, jsOr, hs]

theorem jsOrOpt_absorb (x y : Option String) (u : String) :
    jsOrOpt x (jsOrOpt y (jsOrOpt x (jsOrOpt y u))) = jsOrOpt x (jsOrOpt y u) := by
  cases x with
  | none => exact jsOrOpt_idem y u
  | some s =>
    by_cases hs : s = ""
    · subst hs
      simp only [jsOrOpt, jsOr, if_pos rfl]
      exact jsOrOpt_idem y u
    · simp [jsOrOpt, jsOr, hs]

/-- The title slot is never left empty, so re-entering the same inputs
reproduces it. -/
theorem title_update_idem (x y z : Option String) :
    jsOrOpt x (jsOrOpt y (jsOrOpt (some (jsOrOpt x (jsOrOpt y (jsOrOpt z "Untitled")))) "Untitled")) =
    jsOrOpt x (jsOrOpt y (jsOrOpt z "Untitled")) := by
  rw [jsOrOpt_some_of_ne
    (jsOrOpt_ne_of_ne (jsOrOpt_ne_of_ne (jsOrOpt_ne_of_ne (by decide) z) y) x)]
  exact jsOrOpt_absorb x y (jsOrOpt z "Untitled")

theorem previewAttach_idem (a : Attachment) : previewAttach (previewAttach a) = previewAttach a := by
  unfold previewAttach
  cases hp : a.path with
  | none => simp [hp]
  | some p =>
    by_cases h : p = "" <;> simp [hp, h]

theorem previewData_idem (d : SessionData) : previewData (previewData d) = previewData d := by
  unfold previewData
  cases ha : d.attachment <;> simp [ha, previewAttach_idem]

theorem previewItem_previewData (env : Env) (d : SessionData) :
    previewItem env (previewData d) = previewItem env d := by
  unfold previewItem previewData
  cases ha : d.attachment <;> simp [ha, previewAttach_idem]

theorem previewData_note (d : SessionData) : (previewData d).note = d.note := by
  unfold previewData
  split <;> rfl

theorem set_note_self (d : SessionData) (v : Option String) (h : d.note = v) :
    ({ d with note := v } : SessionData) = d := by
  cases d
  simp_all

set_option maxHeartbeats 2000000 in
/-- C8: the back operation never alters the draft; away from the first
step (field-menu submode aside) it moves exactly one step back, at the
first step it is a no-op with the `'Already at the first step.'` notice,
and in field-menu edit mode it returns to the field menu; and performing
back after an advancing input and re-entering the same input reproduces
the same session (data and position) as never having gone back. -/
theorem back_reversible_no_op :
    (∀ s : Session, (backCommand s).1.data = s.data) ∧
    (∀ s : Session, isEditMenuMode s = true → s.step ≠ .editMenu →
      backCommand s = ({ s with step := .editMenu }, none)) ∧
    (∀ s : Session, isEditMenuMode s = false → s.step = .title →
      backCommand s = (s, some "Already at the first step.")) ∧
    (∀ (s : Session) (p : Step), isEditMenuMode s = false → stepPrev s.step = some p →
      backCommand s = ({ s with step := p }, none)) ∧
    (∀ (env : Env) (s : Session) (m : Msg), isEditMenuMode s = false →
      (stepMachine env s m).step ≠ s.step →
      backCommand (stepMachine env s m) =
        ({ stepMachine env s m with step := s.step }, none) ∧
      stepMachine env { stepMachine env s m with step := s.step } m = stepMachine env s m) := by
  refine ⟨?_, ?_, ?_, ?_, ?_⟩
  · intro s
    unfold backCommand
    split
    · rfl
    · split <;> rfl
  · intro s h1 h2
    simp [backCommand, h1, h2]
  · intro s h1 h2
    simp [backCommand, h1, h2, stepPrev]
  · intro s p h1 h2
    simp [backCommand, h1, h2]
  · intro env s m hmenu hne
    rcases s with ⟨uid, mo, em, st, d, pend⟩
    have hm2 : ∀ (st' : Step) (d' : SessionData) (p' : Option Item),
        isEditMenuMode ⟨uid, mo, em, st', d', p'⟩ = false := fun _ _ _ => hmenu
    cases st with
    | confirming => simp [stepMachine] at hne
    | editMenu => simp [stepMachine] at hne
    | title =>
      by_cases hc : isSkipTextOpt m.text = true ∧ mo = Mode.edit
      · obtain ⟨hskip, hmode⟩ := hc
        subst hmode
        simp [stepMachine, advanceTo, hm2, hskip, backCommand, stepPrev]
      · simp [stepMachine, advanceTo, hm2, hc, backCommand, stepPrev, title_update_idem]
    | type =>
      by_cases hc : isSkipText (jsTrim (m.text.getD "")) = true
      · by_cases hmode : mo = Mode.edit
        · subst hmode
          simp [stepMachine, advanceTo, hm2, hc, backCommand, stepPrev]
        · simp [stepMachine, advanceTo, hm2, hc, hmode, backCommand, stepPrev]
      · simp [stepMachine, advanceTo, hm2, hc, backCommand, stepPrev]
    | date =>
      by_cases hc : isSkipText (jsTrim (m.text.getD "")) = true
      · by_cases hmode : mo = Mode.edit
        · subst hmode
          simp [stepMachine, advanceTo, hm2, hc, backCommand, stepPrev]
        · simp [stepMachine, advanceTo, hm2, hc, hmode, backCommand, stepPrev]
      · by_cases hempty : jsTrim (m.text.getD "") = ""
        · have h0 : isSkipText "" = false := by decide
          simp [stepMachine, advanceTo, hm2, hc, hempty, h0, backCommand, stepPrev]
        · cases hp : parseFlexibleDate env (jsTrim (m.text.getD "")) <;>
            simp [stepMachine, advanceTo, hm2, hc, hempty, hp, backCommand, stepPrev]
    | count =>
      by_cases hc : isSkipTextOpt m.text = true
      · by_cases hmode : mo = Mode.edit
        · subst hmode
          simp [stepMachine, advanceTo, hm2, hc, backCommand, stepPrev]
        · simp [stepMachine, advanceTo, hm2, hc, hmode, backCommand, stepPrev]
      · simp [stepMachine, advanceTo, hm2, hc, backCommand, stepPrev]
    | location =>
      by_cases hc : isSkipTextOpt m.text = true
      · by_cases hmode : mo = Mode.edit
        · subst hmode
          simp [stepMachine, advanceTo, hm2, hc, backCommand, stepPrev]
        · simp [stepMachine, advanceTo, hm2, hc, hmode, backCommand, stepPrev]
      · cases hloc : m.location with
        | some q => simp [stepMachine, advanceTo, hm2, hc, hloc, backCommand, stepPrev]
        | none =>
          cases hmt : m.text with
          | none =>
            have h0 : isSkipTextOpt (none : Option String) = false := by decide
            simp [stepMachine, h0, hloc, hmt] at hne
          | some t =>
            rw [hmt] at hc
            by_cases hcond : t ≠ "" ∧ t ≠ "Send my location" ∧ t ≠ "Type location"
            · cases hgeo : env.geocode (jsTrim t) <;>
                simp [stepMachine, advanceTo, hm2, hc, hloc, hmt, hcond, hgeo, backCommand,
                  stepPrev]
            · simp [stepMachine, hc, hloc, hmt, hcond] at hne
    | attachment =>
      cases hph : m.photo.getLast? with
      | some fid =>
        by_cases hdl : env.download fid = true <;>
          simp [stepMachine, advanceTo, hm2, hph, hdl, backCommand, stepPrev]
      | none =>
        cases hdoc : m.document with
        | some doc =>
          by_cases hdl : env.download doc.1 = true <;>
            simp [stepMachine, advanceTo, hm2, hph, hdoc, hdl, backCommand, stepPrev]
        | none =>
          by_cases hsk : jsTruthy m.text = true ∧ isSkipTextOpt m.text = true
          · by_cases hmode : mo = Mode.edit
            · subst hmode
              simp [stepMachine, advanceTo, hm2, hph, hdoc, hsk, backCommand, stepPrev]
            · simp [stepMachine, advanceTo, hm2, hph, hdoc, hsk, hmode, backCommand, stepPrev]
          · simp [stepMachine, hph, hdoc, hsk] at hne
    | note =>
      by_cases hsk : jsTruthy m.text = true ∧ isSkipTextOpt m.text = true
      · by_cases hmode : mo = Mode.edit
        · subst hmode
          simp [stepMachine, hm2, hsk, backCommand, stepPrev, sendPreview,
            previewData_idem, previewItem_previewData, previewData_note, set_note_self]
        · simp [stepMachine, hm2, hsk, hmode, backCommand, stepPrev, sendPreview,
            previewData_idem, previewItem_previewData, previewData_note, set_note_self]
      · cases hmt : m.text with
        | some t =>
          rw [hmt] at hsk
          simp [stepMachine, hm2, hsk, hmt, backCommand, stepPrev, sendPreview,
            previewData_idem, previewItem_previewData, previewData_note, set_note_self]
        | none =>
          have h0 : jsTruthy (none : Option String) = false := rfl
          cases hcap : m.caption with
          | some c =>
            simp [stepMachine, hm2, h0, hmt, hcap, backCommand, stepPrev, sendPreview,
              previewData_idem, previewItem_previewData, previewData_note, set_note_self]
          | none =>
            simp [stepMachine, hm2, h0, hmt, hcap, backCommand, stepPrev, sendPreview,
              previewData_idem, previewItem_previewData, previewData_note, set_note_self,
              jsOrOpt, jsOr_empty_right]

/-- Witness for C8: a create session at the count step, entering `5`,
going back, and re-entering `5`. -/
theorem back_reversible_no_op_witness :
    backCommand (stepMachine env0 createAtCount { text := some "5" }) =
      ({ stepMachine env0 createAtCount { text := some "5" } with step := .count }, none) ∧
    stepMachine env0
        { stepMachine env0 createAtCount { text := some "5" } with step := .count }
        { text := some "5" } =
      stepMachine env0 createAtCount { text := some "5" } ∧
    backCommand { createAtCount with step := .title } =
      ({ createAtCount with step := .title }, some "Already at the first step.") := by
  refine ⟨?_, ?_, ?_⟩
  · exact (back_reversible_no_op.2.2.2.2 env0 createAtCount { text := some "5" } rfl
      (by decide)).1
  · exact (back_reversible_no_op.2.2.2.2 env0 createAtCount { text := some "5" } rfl
      (by decide)).2
  · exact back_reversible_no_op.2.2.1 { createAtCount with step := .title } rfl rfl

end IQMap
